import Mathlib

/-!
Shallow embedding of the Class-Chat server
(src/Charlie_Meyers_C00513476_server.py).

The server keeps two module-level dictionaries protected by one lock:
  clients : {username: socket}     and     groups : {group_name: [usernames]}.
Python dicts preserve insertion order and have unique keys, so both are
modelled as association lists together with a no-duplicate-keys invariant.
A socket is modelled as a handle carrying an identifier and a liveness flag:
`sendall` on a live handle writes one payload, `sendall` on a dead handle
raises (BrokenPipeError / ConnectionResetError).  Every send-style function
therefore returns the list of payloads actually written plus a Boolean that
is true when an exception was raised (the source has no try/except around
any `sendall`, so a raise aborts the rest of the function and propagates to
the caller).  `message_to_json` serialises a four-field JSON object; since
the encoding is self-describing and injective it is modelled as the record
of its four fields.
-/

set_option autoImplicit false

namespace ClassChat

/-- A client socket: an identifier plus whether writes to it succeed.
A write (`sendall`) to a handle with `alive = false` raises. -/
structure Handle where
  hid : Nat
  alive : Bool
deriving Repr, DecidableEq

/-- The four-field JSON message object built by `message_to_json`. -/
structure Envelope where
  status : String
  sender : String
  receiver : String
  text : String
deriving Repr, DecidableEq

/-- `message_to_json(status, sender, receiver, message)`: builds the JSON
object `{"status": status, "sender": sender, "receiver": receiver,
"text": message}`; modelled as the record of the four fields. -/
def message_to_json (status sender receiver message : String) : Envelope :=
  { status := status, sender := sender, receiver := receiver, text := message }

/-- The `clients` dictionary: username → socket, in insertion order. -/
abbrev Clients := List (String × Handle)

/-- The `groups` dictionary: group name → list of member usernames. -/
abbrev Groups := List (String × List String)

/-- Dictionary lookup `d[k]` / `k in d` (first matching key). -/
def assocLookup {β : Type} : List (String × β) → String → Option β
  | [], _ => none
  | (k, v) :: rest, key => if k = key then some v else assocLookup rest key

/-- Dictionary update `d[k] = v`: overwrites in place if the key is
present, otherwise appends a new entry (Python dict insertion order). -/
def assocSet {β : Type} : List (String × β) → String → β → List (String × β)
  | [], key, v => [(key, v)]
  | (k, w) :: rest, key, v =>
    if k = key then (key, v) :: rest else (k, w) :: assocSet rest key v

/-- Dictionary deletion `del d[k]`: removes the (unique) entry with the
given key; no-op if absent. -/
def assocErase {β : Type} : List (String × β) → String → List (String × β)
  | [], _ => []
  | (k, w) :: rest, key => if k = key then rest else (k, w) :: assocErase rest key

/-- Keys of a dictionary are pairwise distinct (always true of a Python
dict; maintained by `assocSet` / `assocErase`). -/
def NodupKeys {β : Type} (l : List (String × β)) : Prop :=
  (l.map Prod.fst).Nodup

/-- The server's shared mutable state: the two dictionaries. -/
structure ServerState where
  clients : Clients
  groups : Groups
deriving Repr, DecidableEq

/-- One successful `sendall`: the payload was written to the socket that is
registered under the given username. -/
abbrev Delivery := String × Envelope

/-- `socket.sendall(payload)`: one delivery if the peer is alive, else a
raised exception (`true` in the second component) with nothing written. -/
def sendall (recipient : String) (h : Handle) (env : Envelope) :
    List Delivery × Bool :=
  if h.alive then ([(recipient, env)], false) else ([], true)

/-- `send_system_message(user, message)`: writes
`{system, SERVER, user, message}` to `user`'s socket if `user in clients`;
does nothing if the user is not online. -/
def send_system_message (cl : Clients) (user message : String) :
    List Delivery × Bool :=
  match assocLookup cl user with
  | some h => sendall user h (message_to_json "system" "SERVER" user message)
  | none => ([], false)

/-- `send_private_message(sender, receiver, text)`: forwards
`{private, sender, receiver, text}` to `receiver` if online, else notifies
the sender with a system message. -/
def send_private_message (cl : Clients) (sender receiver text : String) :
    List Delivery × Bool :=
  match assocLookup cl receiver with
  | some h => sendall receiver h (message_to_json "private" sender receiver text)
  | none => send_system_message cl sender ("User " ++ receiver ++ " not found.")

/-- The `for user in groups[group_name]:` loop of `send_group_message`:
writes to every member other than the sender who is in `clients`; a raise
from one `sendall` aborts the rest of the loop. -/
def groupSendLoop (cl : Clients) (sender : String) (env : Envelope) :
    List String → List Delivery × Bool
  | [] => ([], false)
  | user :: rest =>
    if user ≠ sender then
      match assocLookup cl user with
      | some h =>
        if h.alive then
          let res := groupSendLoop cl sender env rest
          ((user, env) :: res.1, res.2)
        else ([], true)
      | none => groupSendLoop cl sender env rest
    else groupSendLoop cl sender env rest

/-- `send_group_message(sender, group_name, text)`: if the group exists and
the sender is a member, sends `{group, sender, group_name, text}` to every
other online member; else one system error to the sender (the nonexistent
and not-a-member cases share a single message). -/
def send_group_message (st : ServerState) (sender group_name text : String) :
    List Delivery × Bool :=
  match assocLookup st.groups group_name with
  | some members =>
    if sender ∈ members then
      groupSendLoop st.clients sender
        (message_to_json "group" sender group_name text) members
    else
      send_system_message st.clients sender
        ("Group " ++ group_name ++ " does not exist or you are not a member.")
  | none =>
    send_system_message st.clients sender
      ("Group " ++ group_name ++ " does not exist or you are not a member.")

/-- `create_group(sender, group_name)`: creates the group with the sender
as sole member and acknowledges, or reports that it already exists. -/
def create_group (st : ServerState) (sender group_name : String) :
    ServerState × List Delivery × Bool :=
  match assocLookup st.groups group_name with
  | none =>
    let st' := { st with groups := assocSet st.groups group_name [sender] }
    let res := send_system_message st'.clients sender
      ("Group " ++ group_name ++ " created successfully.")
    (st', res.1, res.2)
  | some _ =>
    let res := send_system_message st.clients sender
      ("Group " ++ group_name ++ " already exists.")
    (st, res.1, res.2)

/-- `join_group(sender, group_name)`: appends the sender to an existing
group if not already a member; three distinct system notices. -/
def join_group (st : ServerState) (sender group_name : String) :
    ServerState × List Delivery × Bool :=
  match assocLookup st.groups group_name with
  | some members =>
    if sender ∈ members then
      let res := send_system_message st.clients sender
        ("You are already in group " ++ group_name ++ ".")
      (st, res.1, res.2)
    else
      let st' :=
        { st with groups := assocSet st.groups group_name (members ++ [sender]) }
      let res := send_system_message st'.clients sender
        ("You have joined group " ++ group_name ++ ".")
      (st', res.1, res.2)
  | none =>
    let res := send_system_message st.clients sender
      ("Group " ++ group_name ++ " does not exist.")
    (st, res.1, res.2)

/-- The parsed JSON fields of one inbound message (the sender is not read
from the payload: `process_message` receives it from the worker). -/
structure MsgData where
  status : String
  receiver : String
  text : String
deriving Repr, DecidableEq

/-- `process_message(data, sender)`: dispatch by `data["status"]`; any
unrecognized status falls through every branch and is silently ignored. -/
def process_message (st : ServerState) (data : MsgData) (sender : String) :
    ServerState × List Delivery × Bool :=
  if data.status = "private" then
    let res := send_private_message st.clients sender data.receiver data.text
    (st, res.1, res.2)
  else if data.status = "group" then
    let res := send_group_message st sender data.receiver data.text
    (st, res.1, res.2)
  else if data.status = "create" then
    create_group st sender data.receiver
  else if data.status = "join" then
    join_group st sender data.receiver
  else (st, [], false)

/-- The `for client in clients.values():` loop of
`broadcast_system_message`; a raise from one `sendall` aborts the loop and
propagates. -/
def broadcastLoop (env : Envelope) : Clients → List Delivery × Bool
  | [] => ([], false)
  | (user, h) :: rest =>
    if h.alive then
      let res := broadcastLoop env rest
      ((user, env) :: res.1, res.2)
    else ([], true)

/-- `broadcast_system_message(message)`: sends
`{system, SERVER, ALL, message}` to every connected client. -/
def broadcast_system_message (cl : Clients) (message : String) :
    List Delivery × Bool :=
  broadcastLoop (message_to_json "system" "SERVER" "ALL" message) cl

/-- One result of `client_socket.recv` inside the worker loop: empty bytes
(peer closed), bytes that fail to parse as a well-formed envelope
(`json.loads` raises, or a required key is missing), or a decoded message. -/
inductive Frame where
  | empty : Frame
  | malformed : Frame
  | valid : MsgData → Frame
deriving Repr, DecidableEq

/-- Why the worker's receive loop ended: `peerClosed` (zero-length read,
`break`), `decodeError` (malformed payload: the uncaught decode exception
leaves the loop), `transportError` (a `sendall` raised
BrokenPipe/ConnectionReset, caught by the worker's `except`). -/
inductive ExitCause where
  | peerClosed : ExitCause
  | decodeError : ExitCause
  | transportError : ExitCause
deriving Repr, DecidableEq

/-- The `while True:` receive loop of `handle_client`, run over the listed
recv results; `none` means the worker is still blocked reading. -/
def workerLoop (st : ServerState) (username : String) :
    List Frame → ServerState × List Delivery × Option ExitCause
  | [] => (st, [], none)
  | Frame.empty :: _ => (st, [], some ExitCause.peerClosed)
  | Frame.malformed :: _ => (st, [], some ExitCause.decodeError)
  | Frame.valid d :: rest =>
    let res := process_message st d username
    if res.2.2 then (res.1, res.2.1, some ExitCause.transportError)
    else
      let res' := workerLoop res.1 username rest
      (res'.1, res.2.1 ++ res'.2.1, res'.2.2)

/-- The `finally:` block of `handle_client`: delete the username from
`clients` if present, close the socket, then broadcast the departure
notice over the remaining clients. -/
def workerCleanup (st : ServerState) (username : String) :
    ServerState × List Delivery × Bool :=
  let st' := { st with clients := assocErase st.clients username }
  let res := broadcast_system_message st'.clients (username ++ " has left the chat.")
  (st', res.1, res.2)

/-- `handle_client` after the username handshake: register the socket,
run the receive loop, and on any loop exit run the cleanup block. -/
def handle_client (st : ServerState) (username : String) (sock : Handle)
    (frames : List Frame) : ServerState × List Delivery × Option ExitCause :=
  let st0 := { st with clients := assocSet st.clients username sock }
  let res := workerLoop st0 username frames
  match res.2.2 with
  | none => (res.1, res.2.1, none)
  | some cause =>
    let fin := workerCleanup res.1 username
    (fin.1, res.2.1 ++ fin.2.1, some cause)

/-- One Session Registry operation on `clients`. -/
inductive RegOp where
  | register : String → Handle → RegOp
  | deregister : String → RegOp
deriving Repr, DecidableEq

/-- Apply one registry operation: `register` is `clients[u] = h`
(`handle_client` line 79), `deregister` is `del clients[u]` if present
(`handle_client` lines 97-98). -/
def applyRegOp (cl : Clients) : RegOp → Clients
  | RegOp.register u h => assocSet cl u h
  | RegOp.deregister u => assocErase cl u

/-- Apply a sequence of registry operations, oldest first. -/
def applyRegOps (cl : Clients) : List RegOp → Clients
  | [] => cl
  | op :: rest => applyRegOps (applyRegOp cl op) rest

/-- Modelled from the spec: "`lookup(identity)` returns the handle from
the most recent `register` not yet followed by a `deregister`, else
absent", reading the operation list most-recent-first. -/
def recentLookup (id : String) : List RegOp → Option Handle
  | [] => none
  | RegOp.register u h :: earlier =>
    if u = id then some h else recentLookup id earlier
  | RegOp.deregister u :: earlier =>
    if u = id then none else recentLookup id earlier

/-- Every socket currently in `clients` accepts writes. -/
def AllAlive (cl : Clients) : Prop :=
  ∀ p ∈ cl, (Prod.snd p).alive = true

/-- Well-formedness of the Group Directory claimed by the spec: every
group is nonempty and lists no member twice. -/
def GroupsWF (gs : Groups) : Prop :=
  ∀ p ∈ gs, Prod.snd p ≠ [] ∧ (Prod.snd p).Nodup

/-! ### Dictionary lemmas -/

theorem assocLookup_assocSet {β : Type} (l : List (String × β)) (k id : String)
    (v : β) :
    assocLookup (assocSet l k v) id =
      if k = id then some v else assocLookup l id := by
  induction l with
  | nil => simp [assocSet, assocLookup]
  | cons p rest ih =>
    obtain ⟨k', w⟩ := p
    by_cases h : k' = k
    · subst h
      by_cases h2 : k' = id <;> simp [assocSet, assocLookup, h2]
    · by_cases h2 : k' = id
      · subst h2
        simp [assocSet, assocLookup, h, Ne.symm h]
      · simp [assocSet, assocLookup, h, h2, ih]

theorem assocLookup_eq_none_iff {β : Type} (l : List (String × β)) (id : String) :
    assocLookup l id = none ↔ id ∉ l.map Prod.fst := by
  induction l with
  | nil => simp [assocLookup]
  | cons p rest ih =>
    obtain ⟨k, w⟩ := p
    by_cases h : k = id
    · subst h
      simp [assocLookup]
    · simp [assocLookup, h, ih, Ne.symm h]

theorem assocLookup_mem {β : Type} {l : List (String × β)} {k : String} {v : β}
    (h : assocLookup l k = some v) : (k, v) ∈ l := by
  induction l with
  | nil => simp [assocLookup] at h
  | cons p rest ih =>
    obtain ⟨k', w⟩ := p
    by_cases h2 : k' = k
    · subst h2
      simp [assocLookup] at h
      simp [h]
    · simp [assocLookup, h2] at h
      exact List.mem_cons_of_mem _ (ih h)

theorem mem_assocSet {β : Type} {l : List (String × β)} {k : String} {v : β}
    {p : String × β} (h : p ∈ assocSet l k v) : p ∈ l ∨ p = (k, v) := by
  induction l with
  | nil => simp [assocSet] at h; simp [h]
  | cons q rest ih =>
    obtain ⟨k', w⟩ := q
    by_cases h2 : k' = k
    · subst h2
      simp [assocSet] at h
      rcases h with h | h
      · right; simp [h]
      · left; exact List.mem_cons_of_mem _ h
    · simp [assocSet, h2] at h
      rcases h with h | h
      · left; simp [h]
      · rcases ih h with h3 | h3
        · left; exact List.mem_cons_of_mem _ h3
        · right; exact h3

theorem mem_assocErase {β : Type} {l : List (String × β)} {k : String}
    {p : String × β} (h : p ∈ assocErase l k) : p ∈ l := by
  induction l with
  | nil => simp [assocErase] at h
  | cons q rest ih =>
    obtain ⟨k', w⟩ := q
    by_cases h2 : k' = k
    · subst h2
      simp [assocErase] at h
      exact List.mem_cons_of_mem _ h
    · simp [assocErase, h2] at h
      rcases h with h | h
      · simp [h]
      · exact List.mem_cons_of_mem _ (ih h)

theorem keys_assocSet {β : Type} (l : List (String × β)) (k : String) (v : β) :
    (assocSet l k v).map Prod.fst =
      if k ∈ l.map Prod.fst then l.map Prod.fst else l.map Prod.fst ++ [k] := by
  induction l with
  | nil => simp [assocSet]
  | cons p rest ih =>
    obtain ⟨k', w⟩ := p
    by_cases h : k' = k
    · subst h
      simp [assocSet]
    · by_cases h2 : k ∈ rest.map Prod.fst <;>
        simp [assocSet, h, ih, Ne.symm h, h2]

theorem keys_assocErase_sublist {β : Type} (l : List (String × β)) (k : String) :
    ((assocErase l k).map Prod.fst).Sublist (l.map Prod.fst) := by
  induction l with
  | nil => simp [assocErase]
  | cons p rest ih =>
    obtain ⟨k', w⟩ := p
    by_cases h : k' = k
    · subst h
      simp [assocErase]
    · simpa [assocErase, h] using ih

theorem nodupKeys_assocSet {β : Type} {l : List (String × β)} (k : String)
    (v : β) (h : NodupKeys l) : NodupKeys (assocSet l k v) := by
  unfold NodupKeys at *
  rw [keys_assocSet]
  by_cases h2 : k ∈ l.map Prod.fst
  · simp [h2, h]
  · simp only [h2, if_false]
    exact h.append (List.nodup_singleton k) (by simp [h2])

theorem nodupKeys_assocErase {β : Type} {l : List (String × β)} (k : String)
    (h : NodupKeys l) : NodupKeys (assocErase l k) :=
  (keys_assocErase_sublist l k).nodup h

theorem assocLookup_assocErase {β : Type} {l : List (String × β)}
    (hN : NodupKeys l) (k id : String) :
    assocLookup (assocErase l k) id =
      if k = id then none else assocLookup l id := by
  induction l with
  | nil => simp [assocErase, assocLookup]
  | cons p rest ih =>
    obtain ⟨k', w⟩ := p
    have hN2 : k' ∉ rest.map Prod.fst ∧ (rest.map Prod.fst).Nodup := by
      unfold NodupKeys at hN
      rw [List.map_cons, List.nodup_cons] at hN
      exact hN
    obtain ⟨hnotin, hN'⟩ := hN2
    by_cases h : k' = k
    · subst h
      by_cases h2 : k' = id
      · subst h2
        simp [assocErase, (assocLookup_eq_none_iff rest k').2 hnotin]
      · simp [assocErase, assocLookup, h2]
    · by_cases h2 : k' = id
      · subst h2
        simp [assocErase, assocLookup, h, Ne.symm h]
      · simp [assocErase, assocLookup, h, h2, ih hN']

theorem assocErase_of_lookup_none {β : Type} {l : List (String × β)}
    {k : String} (h : assocLookup l k = none) : assocErase l k = l := by
  induction l with
  | nil => simp [assocErase]
  | cons p rest ih =>
    obtain ⟨k', w⟩ := p
    by_cases h2 : k' = k
    · subst h2
      simp [assocLookup] at h
    · simp [assocLookup, h2] at h
      simp [assocErase, h2, ih h]

theorem assocSet_of_lookup_none {β : Type} {l : List (String × β)}
    {k : String} (v : β) (h : assocLookup l k = none) :
    assocSet l k v = l ++ [(k, v)] := by
  induction l with
  | nil => simp [assocSet]
  | cons p rest ih =>
    obtain ⟨k', w⟩ := p
    by_cases h2 : k' = k
    · subst h2
      simp [assocLookup] at h
    · simp [assocLookup, h2] at h
      simp [assocSet, h2, ih h]

theorem assocErase_assocSet_of_lookup_none {β : Type} {l : List (String × β)}
    {k : String} (v : β) (h : assocLookup l k = none) :
    assocErase (assocSet l k v) k = l := by
  rw [assocSet_of_lookup_none v h]
  induction l with
  | nil => simp [assocErase]
  | cons p rest ih =>
    obtain ⟨k', w⟩ := p
    by_cases h2 : k' = k
    · subst h2
      simp [assocLookup] at h
    · simp [assocLookup, h2] at h
      simp [assocErase, h2, ih h]

/-! ### Delivery-loop and registry-sequence lemmas -/

theorem AllAlive.lookup {cl : Clients} (hA : AllAlive cl) {u : String}
    {h : Handle} (hl : assocLookup cl u = some h) : h.alive = true :=
  hA (u, h) (assocLookup_mem hl)

theorem send_system_message_online {cl : Clients} {user : String} {h : Handle}
    (hl : assocLookup cl user = some h) (hal : h.alive = true)
    (message : String) :
    send_system_message cl user message =
      ([(user, message_to_json "system" "SERVER" user message)], false) := by
  simp [send_system_message, hl, sendall, hal]

theorem send_system_message_offline {cl : Clients} {user : String}
    (hl : assocLookup cl user = none) (message : String) :
    send_system_message cl user message = ([], false) := by
  simp [send_system_message, hl]

theorem broadcastLoop_allAlive {cl : Clients} (hA : AllAlive cl)
    (env : Envelope) :
    broadcastLoop env cl = (cl.map (fun p => (p.1, env)), false) := by
  induction cl with
  | nil => simp [broadcastLoop]
  | cons p rest ih =>
    obtain ⟨u, h⟩ := p
    have hal : h.alive = true := hA (u, h) (List.mem_cons_self _ _)
    have hA' : AllAlive rest := fun q hq => hA q (List.mem_cons_of_mem _ hq)
    simp [broadcastLoop, hal, ih hA']

theorem groupSendLoop_allAlive {cl : Clients} (hA : AllAlive cl)
    (sender : String) (env : Envelope) (members : List String) :
    groupSendLoop cl sender env members =
      ((members.filter
          (fun u => u != sender && (assocLookup cl u).isSome)).map
        (fun u => (u, env)), false) := by
  induction members with
  | nil => simp [groupSendLoop]
  | cons user rest ih =>
    by_cases hus : user = sender
    · subst hus
      simp [groupSendLoop, ih]
    · match hl : assocLookup cl user with
      | some h =>
        have hal : h.alive = true := hA.lookup hl
        simp [groupSendLoop, hus, hl, hal, ih]
      | none =>
        simp [groupSendLoop, hus, hl, ih]

theorem applyRegOps_append (cl : Clients) (l1 l2 : List RegOp) :
    applyRegOps cl (l1 ++ l2) = applyRegOps (applyRegOps cl l1) l2 := by
  induction l1 generalizing cl with
  | nil => simp [applyRegOps]
  | cons op rest ih => simp [applyRegOps, ih]

theorem nodupKeys_applyRegOps {cl : Clients} (h : NodupKeys cl)
    (ops : List RegOp) : NodupKeys (applyRegOps cl ops) := by
  induction ops generalizing cl with
  | nil => exact h
  | cons op rest ih =>
    cases op with
    | register u hd => exact ih (nodupKeys_assocSet u hd h)
    | deregister u => exact ih (nodupKeys_assocErase u h)

theorem lookup_applyRegOps (ops : List RegOp) (id : String) :
    assocLookup (applyRegOps [] ops) id = recentLookup id ops.reverse := by
  induction ops using List.reverseRecOn with
  | nil => simp [applyRegOps, assocLookup, recentLookup]
  | append_singleton l op ih =>
    rw [applyRegOps_append, List.reverse_append]
    have hN : NodupKeys (applyRegOps ([] : Clients) l) :=
      nodupKeys_applyRegOps (by simp [NodupKeys]) l
    cases op with
    | register u hd =>
      simp only [applyRegOps, applyRegOp, List.reverse_singleton,
        List.singleton_append, recentLookup]
      rw [assocLookup_assocSet]
      by_cases h : u = id <;> simp [h, ih]
    | deregister u =>
      simp only [applyRegOps, applyRegOp, List.reverse_singleton,
        List.singleton_append, recentLookup]
      rw [assocLookup_assocErase hN]
      by_cases h : u = id <;> simp [h, ih]

/-! ### Dispatch helper lemmas -/

theorem process_message_private (st : ServerState) (data : MsgData)
    (s : String) (hst : data.status = "private") :
    process_message st data s =
      (st, (send_private_message st.clients s data.receiver data.text).1,
       (send_private_message st.clients s data.receiver data.text).2) := by
  simp [process_message, hst]

theorem process_message_group (st : ServerState) (data : MsgData)
    (s : String) (hst : data.status = "group") :
    process_message st data s =
      (st, (send_group_message st s data.receiver data.text).1,
       (send_group_message st s data.receiver data.text).2) := by
  simp [process_message, hst]

theorem process_message_create (st : ServerState) (data : MsgData)
    (s : String) (hst : data.status = "create") :
    process_message st data s = create_group st s data.receiver := by
  simp [process_message, hst]

theorem process_message_join (st : ServerState) (data : MsgData)
    (s : String) (hst : data.status = "join") :
    process_message st data s = join_group st s data.receiver := by
  simp [process_message, hst]

theorem process_message_unknown (st : ServerState) (data : MsgData)
    (s : String) (h1 : data.status ≠ "private") (h2 : data.status ≠ "group")
    (h3 : data.status ≠ "create") (h4 : data.status ≠ "join") :
    process_message st data s = (st, [], false) := by
  simp [process_message, h1, h2, h3, h4]

/-! ### Shared demonstration fixtures -/

/-- A live socket for each demonstration user. -/
def aliceSock : Handle := ⟨1, true⟩

def bobSock : Handle := ⟨2, true⟩

def carolSock : Handle := ⟨3, true⟩

/-- A server state with three online users and one group holding all
three, used to instantiate the theorems below on concrete inputs. -/
def demoState : ServerState :=
  { clients := [("alice", aliceSock), ("bob", bobSock), ("carol", carolSock)],
    groups := [("proj", ["alice", "bob", "carol"])] }

/-! ### Claims -/

/-- Claim C3: after any finite sequence of register/deregister operations
starting from the empty registry, `lookup(identity)` returns the handle of
the most recent `register(identity, _)` not yet followed by a
`deregister(identity)`, and is absent otherwise; `register` on a present
identity overwrites the mapping in place (last-write-wins), and
`deregister` on an absent identity is a no-op. -/
theorem C3_registry_last_write_wins :
    (∀ (ops : List RegOp) (id : String),
       assocLookup (applyRegOps [] ops) id = recentLookup id ops.reverse)
    ∧ (∀ (cl : Clients) (id : String) (h : Handle),
       assocLookup (assocSet cl id h) id = some h)
    ∧ (∀ (cl : Clients) (id : String),
       assocLookup cl id = none → assocErase cl id = cl) := by
  refine ⟨lookup_applyRegOps, fun cl id h => ?_, fun cl id h => assocErase_of_lookup_none h⟩
  rw [assocLookup_assocSet]
  simp

/-- Concrete run for C3: alice registers, bob registers, alice re-registers
(overwrite), bob deregisters; lookup then finds alice's latest handle and
no bob, and a deregister of the absent bob is a no-op. -/
def c3Ops : List RegOp :=
  [RegOp.register "alice" ⟨1, true⟩, RegOp.register "bob" ⟨2, true⟩,
   RegOp.register "alice" ⟨3, true⟩, RegOp.deregister "bob"]

theorem C3_registry_last_write_wins_witness :
    assocLookup (applyRegOps [] c3Ops) "alice" = recentLookup "alice" c3Ops.reverse
    ∧ assocLookup (applyRegOps [] c3Ops) "alice" = some ⟨3, true⟩
    ∧ assocLookup (applyRegOps [] c3Ops) "bob" = none
    ∧ assocErase (applyRegOps [] c3Ops) "bob" = applyRegOps [] c3Ops :=
  ⟨C3_registry_last_write_wins.1 c3Ops "alice", by decide, by decide,
   C3_registry_last_write_wins.2.2 (applyRegOps [] c3Ops) "bob" (by decide)⟩

/-- Claim C2: a dispatched `private` envelope is delivered to the target's
socket whenever the target is registered (the target may equal the sender:
nothing special-cases self-sends), and otherwise the sender receives one
`system` envelope saying the user was not found; moreover registering and
then deregistering an identity restores the registry exactly, so such an
identity is treated identically to one never registered. -/
theorem C2_private_message (st : ServerState) (s r t : String) :
    (∀ h : Handle, assocLookup st.clients r = some h → h.alive = true →
       process_message st ⟨"private", r, t⟩ s =
         (st, [(r, message_to_json "private" s r t)], false))
    ∧ (assocLookup st.clients r = none →
       ∀ hs : Handle, assocLookup st.clients s = some hs → hs.alive = true →
       process_message st ⟨"private", r, t⟩ s =
         (st, [(s, message_to_json "system" "SERVER" s
                  ("User " ++ r ++ " not found."))], false))
    ∧ (assocLookup st.clients r = none → ∀ h : Handle,
       assocErase (assocSet st.clients r h) r = st.clients) := by
  refine ⟨fun h hl hal => ?_, fun hl hs hsl hsal => ?_, fun hl h => assocErase_assocSet_of_lookup_none h hl⟩
  · rw [process_message_private st ⟨"private", r, t⟩ s rfl]
    simp [send_private_message, hl, sendall, hal]
  · rw [process_message_private st ⟨"private", r, t⟩ s rfl]
    simp [send_private_message, hl, send_system_message_online hsl hsal]

theorem C2_private_message_witness :
    assocLookup demoState.clients "alice" = some aliceSock
    ∧ aliceSock.alive = true
    ∧ process_message demoState ⟨"private", "alice", "note to self"⟩ "alice" =
        (demoState,
         [("alice", message_to_json "private" "alice" "alice" "note to self")],
         false)
    ∧ assocLookup demoState.clients "dave" = none
    ∧ process_message demoState ⟨"private", "dave", "hi"⟩ "bob" =
        (demoState,
         [("bob", message_to_json "system" "SERVER" "bob" "User dave not found.")],
         false) :=
  ⟨rfl, rfl,
   (C2_private_message demoState "alice" "alice" "note to self").1 aliceSock rfl rfl,
   rfl,
   (C2_private_message demoState "bob" "dave" "hi").2.1 rfl bobSock rfl rfl⟩

/-- Claim C1: a dispatched `group` envelope whose target group exists and
whose sender is a member is delivered to exactly the members of that group
that are currently registered, other than the sender, who never receives an
echo; in every other case (group absent, or sender not a member — one
collapsed error message) the sender receives exactly one `system` error
envelope. Sockets are assumed live, and for the error case the sender
must still be registered (see claim C10). -/
theorem C1_group_dispatch (st : ServerState) (s g t : String) :
    (∀ members : List String, AllAlive st.clients →
       assocLookup st.groups g = some members → s ∈ members →
       process_message st ⟨"group", g, t⟩ s =
         (st, (members.filter
                 (fun u => u != s && (assocLookup st.clients u).isSome)).map
               (fun u => (u, message_to_json "group" s g t)), false)
       ∧ s ∉ ((process_message st ⟨"group", g, t⟩ s).2.1).map Prod.fst)
    ∧ (∀ hs : Handle,
       (assocLookup st.groups g = none ∨
        ∃ members, assocLookup st.groups g = some members ∧ s ∉ members) →
       assocLookup st.clients s = some hs → hs.alive = true →
       process_message st ⟨"group", g, t⟩ s =
         (st, [(s, message_to_json "system" "SERVER" s
            ("Group " ++ g ++ " does not exist or you are not a member."))],
          false)) := by
  constructor
  · intro members hA hg hmem
    have hrun : process_message st ⟨"group", g, t⟩ s =
        (st, (members.filter
              (fun u => u != s && (assocLookup st.clients u).isSome)).map
            (fun u => (u, message_to_json "group" s g t)), false) := by
      rw [process_message_group st ⟨"group", g, t⟩ s rfl]
      simp [send_group_message, hg, hmem, groupSendLoop_allAlive hA]
    refine ⟨hrun, ?_⟩
    rw [hrun]
    simp only [List.map_map]
    intro hcontra
    obtain ⟨u, hu, hequ⟩ := List.mem_map.1 hcontra
    have := (List.mem_filter.1 hu).2
    simp only [Function.comp] at hequ
    rw [hequ] at this
    simp at this
  · intro hs hbad hsl hsal
    rw [process_message_group st ⟨"group", g, t⟩ s rfl]
    rcases hbad with hg | ⟨members, hg, hnm⟩
    · simp [send_group_message, hg, send_system_message_online hsl hsal]
    · simp [send_group_message, hg, hnm, send_system_message_online hsl hsal]

theorem C1_group_dispatch_witness :
    AllAlive demoState.clients
    ∧ assocLookup demoState.groups "proj" = some ["alice", "bob", "carol"]
    ∧ "alice" ∈ ["alice", "bob", "carol"]
    ∧ process_message demoState ⟨"group", "proj", "hi"⟩ "alice" =
        (demoState,
         [("bob", message_to_json "group" "alice" "proj" "hi"),
          ("carol", message_to_json "group" "alice" "proj" "hi")], false)
    ∧ assocLookup demoState.groups "ghost" = none
    ∧ process_message demoState ⟨"group", "ghost", "hi"⟩ "alice" =
        (demoState,
         [("alice", message_to_json "system" "SERVER" "alice"
             "Group ghost does not exist or you are not a member.")], false) :=
  ⟨by unfold AllAlive; decide, rfl, by decide,
   ((C1_group_dispatch demoState "alice" "proj" "hi").1
      ["alice", "bob", "carol"] (by unfold AllAlive; decide) rfl (by decide)).1,
   rfl,
   (C1_group_dispatch demoState "alice" "ghost" "hi").2 aliceSock
     (Or.inl rfl) rfl rfl⟩

/-- Claim C4: `create` on an absent group installs it with the creator as
sole member and acknowledges success; `create` on an existing group reports
the conflict and changes nothing; `join` immediately after `create` by the
same user reports already-a-member; `join` before any `create` reports that
the group does not exist; `join` on an existing group by a non-member
appends the user and acknowledges; and the three join notices are pairwise
distinct messages. The sender is assumed registered with a live socket
(see claim C10). -/
theorem C4_create_join (st : ServerState) (s g : String) (hs : Handle)
    (hreg : assocLookup st.clients s = some hs) (hal : hs.alive = true) :
    (assocLookup st.groups g = none →
       create_group st s g =
         ({ st with groups := assocSet st.groups g [s] },
          [(s, message_to_json "system" "SERVER" s
              ("Group " ++ g ++ " created successfully."))], false)
       ∧ assocLookup (assocSet st.groups g [s]) g = some [s])
    ∧ (∀ ms, assocLookup st.groups g = some ms →
       create_group st s g =
         (st, [(s, message_to_json "system" "SERVER" s
             ("Group " ++ g ++ " already exists."))], false))
    ∧ (assocLookup st.groups g = none →
       join_group (create_group st s g).1 s g =
         ((create_group st s g).1,
          [(s, message_to_json "system" "SERVER" s
              ("You are already in group " ++ g ++ "."))], false))
    ∧ (assocLookup st.groups g = none →
       join_group st s g =
         (st, [(s, message_to_json "system" "SERVER" s
             ("Group " ++ g ++ " does not exist."))], false))
    ∧ (∀ ms, assocLookup st.groups g = some ms → s ∉ ms →
       join_group st s g =
         ({ st with groups := assocSet st.groups g (ms ++ [s]) },
          [(s, message_to_json "system" "SERVER" s
              ("You have joined group " ++ g ++ "."))], false))
    ∧ (("You have joined group " ++ g ++ ".") ≠
         ("You are already in group " ++ g ++ ".")
       ∧ ("You have joined group " ++ g ++ ".") ≠
         ("Group " ++ g ++ " does not exist.")
       ∧ ("You are already in group " ++ g ++ ".") ≠
         ("Group " ++ g ++ " does not exist.")) := by
  refine ⟨fun hg => ⟨?_, ?_⟩, fun ms hg => ?_, fun hg => ?_, fun hg => ?_,
    fun ms hg hnm => ?_, ?_, ?_, ?_⟩
  · simp [create_group, hg, send_system_message_online hreg hal]
  · rw [assocLookup_assocSet]
    simp
  · simp [create_group, hg, send_system_message_online hreg hal]
  · have hst1 : (create_group st s g).1 =
        { st with groups := assocSet st.groups g [s] } := by
      simp [create_group, hg]
    rw [hst1]
    have hlook : assocLookup (assocSet st.groups g [s]) g = some [s] := by
      rw [assocLookup_assocSet]; simp
    simp [join_group, hlook, send_system_message_online hreg hal]
  · simp [join_group, hg, send_system_message_online hreg hal]
  · simp [join_group, hg, hnm, send_system_message_online hreg hal]
  · intro h
    have h2 := congrArg String.length h
    simp only [String.length_append,
      show ("You have joined group ").length = 22 from rfl,
      show ("You are already in group ").length = 25 from rfl,
      show (".").length = 1 from rfl] at h2
    omega
  · intro h
    have h2 := congrArg String.length h
    simp only [String.length_append,
      show ("You have joined group ").length = 22 from rfl,
      show ("Group ").length = 6 from rfl,
      show (" does not exist.").length = 16 from rfl,
      show (".").length = 1 from rfl] at h2
    omega
  · intro h
    have h2 := congrArg String.length h
    simp only [String.length_append,
      show ("You are already in group ").length = 25 from rfl,
      show ("Group ").length = 6 from rfl,
      show (" does not exist.").length = 16 from rfl,
      show (".").length = 1 from rfl] at h2
    omega

theorem C4_create_join_witness :
    assocLookup demoState.clients "alice" = some aliceSock
    ∧ aliceSock.alive = true
    ∧ assocLookup demoState.groups "games" = none
    ∧ create_group demoState "alice" "games" =
        ({ demoState with
            groups := assocSet demoState.groups "games" ["alice"] },
         [("alice", message_to_json "system" "SERVER" "alice"
             "Group games created successfully.")], false)
    ∧ join_group (create_group demoState "alice" "games").1 "alice" "games" =
        ((create_group demoState "alice" "games").1,
         [("alice", message_to_json "system" "SERVER" "alice"
             "You are already in group games.")], false)
    ∧ join_group demoState "alice" "games" =
        (demoState,
         [("alice", message_to_json "system" "SERVER" "alice"
             "Group games does not exist.")], false) :=
  ⟨rfl, rfl, rfl,
   ((C4_create_join demoState "alice" "games" aliceSock rfl rfl).1 rfl).1,
   (C4_create_join demoState "alice" "games" aliceSock rfl rfl).2.2.1 rfl,
   (C4_create_join demoState "alice" "games" aliceSock rfl rfl).2.2.2.1 rfl⟩

/-! ### Group Directory invariant lemmas -/

theorem groupsWF_create {st : ServerState} (hWF : GroupsWF st.groups)
    (s g : String) : GroupsWF (create_group st s g).1.groups := by
  match hg : assocLookup st.groups g with
  | none =>
    have hgr : (create_group st s g).1.groups = assocSet st.groups g [s] := by
      simp [create_group, hg]
    rw [hgr]
    intro p hp
    rcases mem_assocSet hp with hpin | hpe
    · exact hWF p hpin
    · subst hpe
      exact ⟨by simp, by simp⟩
  | some ms =>
    have hgr : (create_group st s g).1.groups = st.groups := by
      simp [create_group, hg]
    rw [hgr]
    exact hWF

theorem groupsWF_join {st : ServerState} (hWF : GroupsWF st.groups)
    (s g : String) : GroupsWF (join_group st s g).1.groups := by
  match hg : assocLookup st.groups g with
  | some ms =>
    by_cases hm : s ∈ ms
    · have hgr : (join_group st s g).1.groups = st.groups := by
        simp [join_group, hg, hm]
      rw [hgr]
      exact hWF
    · have hgr : (join_group st s g).1.groups =
          assocSet st.groups g (ms ++ [s]) := by
        simp [join_group, hg, hm]
      rw [hgr]
      intro p hp
      rcases mem_assocSet hp with hpin | hpe
      · exact hWF p hpin
      · subst hpe
        have hms := hWF (g, ms) (assocLookup_mem hg)
        refine ⟨by simp, ?_⟩
        exact List.Nodup.append hms.2 (List.nodup_singleton s) (by simp [hm])
  | none =>
    have hgr : (join_group st s g).1.groups = st.groups := by
      simp [join_group, hg]
    rw [hgr]
    exact hWF

theorem lookup_groups_create_mono (st : ServerState) (s g : String)
    (ms : List String) (hg : assocLookup st.groups g = some ms) (g' : String) :
    ∃ ms', assocLookup (create_group st s g').1.groups g = some ms'
      ∧ ms ⊆ ms' := by
  match hgr : assocLookup st.groups g' with
  | some ms0 => exact ⟨ms, by simp [create_group, hgr, hg], List.Subset.refl ms⟩
  | none =>
    by_cases he : g' = g
    · subst he
      rw [hg] at hgr
      cases hgr
    · refine ⟨ms, ?_, List.Subset.refl ms⟩
      have hq : (create_group st s g').1.groups = assocSet st.groups g' [s] := by
        simp [create_group, hgr]
      rw [hq, assocLookup_assocSet]
      simp [he, hg]

theorem lookup_groups_join_mono (st : ServerState) (s g : String)
    (ms : List String) (hg : assocLookup st.groups g = some ms) (g' : String) :
    ∃ ms', assocLookup (join_group st s g').1.groups g = some ms'
      ∧ ms ⊆ ms' := by
  match hgr : assocLookup st.groups g' with
  | none => exact ⟨ms, by simp [join_group, hgr, hg], List.Subset.refl ms⟩
  | some ms0 =>
    by_cases hm : s ∈ ms0
    · exact ⟨ms, by simp [join_group, hgr, hm, hg], List.Subset.refl ms⟩
    · by_cases he : g' = g
      · subst he
        rw [hg] at hgr
        injection hgr with he2
        subst he2
        refine ⟨ms ++ [s], ?_, List.subset_append_left _ _⟩
        have hq : (join_group st s g').1.groups =
            assocSet st.groups g' (ms ++ [s]) := by
          simp [join_group, hg, hm]
        rw [hq, assocLookup_assocSet]
        simp
      · refine ⟨ms, ?_, List.Subset.refl ms⟩
        have hq : (join_group st s g').1.groups =
            assocSet st.groups g' (ms0 ++ [s]) := by
          simp [join_group, hgr, hm]
        rw [hq, assocLookup_assocSet]
        simp [he, hg]

/-- Claim C5: every operation — `create`, `join`, message dispatch of any
kind, and the disconnect cleanup — preserves the Group Directory
invariant that each listed group is nonempty with no duplicate members;
group membership only ever grows under dispatch (so the creator stays a
member for the group's whole lifetime), and a fresh `create` installs the
creator as sole member. -/
theorem C5_group_directory_invariant (st : ServerState) (data : MsgData)
    (s u g : String) :
    (GroupsWF st.groups → GroupsWF (create_group st s g).1.groups)
    ∧ (GroupsWF st.groups → GroupsWF (join_group st s g).1.groups)
    ∧ (GroupsWF st.groups → GroupsWF (process_message st data s).1.groups)
    ∧ (workerCleanup st u).1.groups = st.groups
    ∧ (∀ ms, assocLookup st.groups g = some ms →
       ∃ ms', assocLookup (process_message st data s).1.groups g = some ms'
         ∧ ms ⊆ ms')
    ∧ (assocLookup st.groups g = none →
       assocLookup (create_group st s g).1.groups g = some [s]) := by
  refine ⟨fun hWF => groupsWF_create hWF s g, fun hWF => groupsWF_join hWF s g,
    fun hWF => ?_, by simp [workerCleanup], fun ms hg => ?_, fun hg => ?_⟩
  · by_cases h1 : data.status = "private"
    · rw [process_message_private st data s h1]
      exact hWF
    · by_cases h2 : data.status = "group"
      · rw [process_message_group st data s h2]
        exact hWF
      · by_cases h3 : data.status = "create"
        · rw [process_message_create st data s h3]
          exact groupsWF_create hWF s data.receiver
        · by_cases h4 : data.status = "join"
          · rw [process_message_join st data s h4]
            exact groupsWF_join hWF s data.receiver
          · rw [process_message_unknown st data s h1 h2 h3 h4]
            exact hWF
  · by_cases h1 : data.status = "private"
    · rw [process_message_private st data s h1]
      exact ⟨ms, hg, List.Subset.refl ms⟩
    · by_cases h2 : data.status = "group"
      · rw [process_message_group st data s h2]
        exact ⟨ms, hg, List.Subset.refl ms⟩
      · by_cases h3 : data.status = "create"
        · rw [process_message_create st data s h3]
          exact lookup_groups_create_mono st s g ms hg data.receiver
        · by_cases h4 : data.status = "join"
          · rw [process_message_join st data s h4]
            exact lookup_groups_join_mono st s g ms hg data.receiver
          · rw [process_message_unknown st data s h1 h2 h3 h4]
            exact ⟨ms, hg, List.Subset.refl ms⟩
  · have hq : (create_group st s g).1.groups = assocSet st.groups g [s] := by
      simp [create_group, hg]
    rw [hq, assocLookup_assocSet]
    simp

theorem C5_group_directory_invariant_witness :
    GroupsWF demoState.groups
    ∧ GroupsWF (join_group demoState "dave" "proj").1.groups
    ∧ (workerCleanup demoState "alice").1.groups = demoState.groups
    ∧ assocLookup demoState.groups "proj" = some ["alice", "bob", "carol"]
    ∧ (∃ ms', assocLookup
          (process_message demoState ⟨"join", "proj", ""⟩ "dave").1.groups
          "proj" = some ms' ∧ ["alice", "bob", "carol"] ⊆ ms')
    ∧ assocLookup demoState.groups "games" = none
    ∧ assocLookup (create_group demoState "alice" "games").1.groups "games" =
        some ["alice"] :=
  ⟨by unfold GroupsWF; decide,
   (C5_group_directory_invariant demoState ⟨"", "", ""⟩ "dave" "x" "proj").2.1
     (by unfold GroupsWF; decide),
   (C5_group_directory_invariant demoState ⟨"", "", ""⟩ "dave" "alice" "proj").2.2.2.1,
   rfl,
   (C5_group_directory_invariant demoState ⟨"join", "proj", ""⟩ "dave" "x"
      "proj").2.2.2.2.1 ["alice", "bob", "carol"] rfl,
   rfl,
   (C5_group_directory_invariant demoState ⟨"", "", ""⟩ "alice" "x"
      "games").2.2.2.2.2 rfl⟩

/-- A registry whose first-listed socket is dead while bob's is live, and
a group containing both plus the sender, exhibiting what a single write
failure does to the delivery loops. -/
def c6State : ServerState :=
  { clients := [("alice", ⟨1, false⟩), ("bob", ⟨2, true⟩)],
    groups := [("proj", ["bob", "alice", "carol"])] }

/-- Claim C6 (code defect, evaluated at the failing input): the spec says a
write failure on one session is skipped, delivery continues to the
remaining sessions, and the failure never reaches the sender of the
original message. The source wraps no `sendall` in try/except, so with
alice's socket dead: the broadcast raises at alice and aborts with bob —
registered and not excluded — receiving nothing; a group send from bob
likewise raises at alice, delivers to nobody, and the exception reaches
bob's own worker loop, terminating the sender's session. -/
theorem C6_transport_failure_aborts_and_propagates :
    broadcast_system_message c6State.clients "carol has left the chat." =
      ([], true)
    ∧ send_group_message c6State "bob" "proj" "hi" = ([], true)
    ∧ workerLoop c6State "bob" [Frame.valid ⟨"group", "proj", "hi"⟩] =
        (c6State, [], some ExitCause.transportError) := by
  exact ⟨by decide, by decide, by decide⟩

/-- Claim C7: a malformed or truncated inbound payload is treated exactly
like a peer close: the worker loop exits (the decode failure leaves the
loop rather than continuing), and the session's final state and deliveries
— the deregistration and departure broadcast of the cleanup block included
— coincide with those of a zero-length read at the same point. -/
theorem C7_decode_failure_equals_close (st : ServerState) (u : String)
    (sock : Handle) (rest rest' : List Frame) :
    (handle_client st u sock (Frame.malformed :: rest)).1 =
      (handle_client st u sock (Frame.empty :: rest')).1
    ∧ (handle_client st u sock (Frame.malformed :: rest)).2.1 =
      (handle_client st u sock (Frame.empty :: rest')).2.1
    ∧ (handle_client st u sock (Frame.malformed :: rest)).2.2 =
        some ExitCause.decodeError
    ∧ workerLoop st u (Frame.malformed :: rest) =
        (st, [], some ExitCause.decodeError) := by
  exact ⟨rfl, rfl, rfl, rfl⟩

theorem map_fst_map_pair (l : Clients) (env : Envelope) :
    (l.map (fun p : String × Handle => (p.1, env))).map Prod.fst =
      l.map Prod.fst := by
  simp [List.map_map]

/-- Claim C8: the disconnect cleanup deletes the identity from the registry
first and only then broadcasts `{system, SERVER, ALL, "<u> has left the
chat."}` with no exclusion set, so (with unique keys and live sockets)
every still-registered session receives the departure notice exactly once
while the departed identity, no longer registered, receives nothing. -/
theorem C8_departure_broadcast (st : ServerState) (u : String)
    (hN : NodupKeys st.clients) (hA : AllAlive st.clients) :
    (workerCleanup st u).1.clients = assocErase st.clients u
    ∧ (workerCleanup st u).2.1 =
        (assocErase st.clients u).map
          (fun p => (p.1, message_to_json "system" "SERVER" "ALL"
              (u ++ " has left the chat.")))
    ∧ (workerCleanup st u).2.2 = false
    ∧ u ∉ ((workerCleanup st u).2.1).map Prod.fst
    ∧ (((workerCleanup st u).2.1).map Prod.fst).Nodup := by
  have hA' : AllAlive (assocErase st.clients u) :=
    fun p hp => hA p (mem_assocErase hp)
  have hb := broadcastLoop_allAlive hA'
    (message_to_json "system" "SERVER" "ALL" (u ++ " has left the chat."))
  have h1 : (workerCleanup st u).1.clients = assocErase st.clients u := by
    simp [workerCleanup]
  have h2 : (workerCleanup st u).2.1 =
      (assocErase st.clients u).map
        (fun p => (p.1, message_to_json "system" "SERVER" "ALL"
            (u ++ " has left the chat."))) := by
    simp [workerCleanup, broadcast_system_message, hb]
  have h3 : (workerCleanup st u).2.2 = false := by
    simp [workerCleanup, broadcast_system_message, hb]
  have hnone : assocLookup (assocErase st.clients u) u = none := by
    rw [assocLookup_assocErase hN]
    simp
  refine ⟨h1, h2, h3, ?_, ?_⟩
  · rw [h2, map_fst_map_pair]
    exact (assocLookup_eq_none_iff _ _).1 hnone
  · rw [h2, map_fst_map_pair]
    exact (keys_assocErase_sublist st.clients u).nodup hN

theorem C8_departure_broadcast_witness :
    NodupKeys demoState.clients
    ∧ AllAlive demoState.clients
    ∧ (workerCleanup demoState "alice").1.clients =
        assocErase demoState.clients "alice"
    ∧ (workerCleanup demoState "alice").2.1 =
        (assocErase demoState.clients "alice").map
          (fun p => (p.1, message_to_json "system" "SERVER" "ALL"
              "alice has left the chat."))
    ∧ "alice" ∉ ((workerCleanup demoState "alice").2.1).map Prod.fst
    ∧ (((workerCleanup demoState "alice").2.1).map Prod.fst).Nodup :=
  ⟨by unfold NodupKeys; decide, by unfold AllAlive; decide,
   (C8_departure_broadcast demoState "alice" (by unfold NodupKeys; decide)
      (by unfold AllAlive; decide)).1,
   (C8_departure_broadcast demoState "alice" (by unfold NodupKeys; decide)
      (by unfold AllAlive; decide)).2.1,
   (C8_departure_broadcast demoState "alice" (by unfold NodupKeys; decide)
      (by unfold AllAlive; decide)).2.2.2.1,
   (C8_departure_broadcast demoState "alice" (by unfold NodupKeys; decide)
      (by unfold AllAlive; decide)).2.2.2.2⟩

/-- Claim C9: a dispatched envelope whose kind is none of private, group,
create, join falls through every branch: nobody receives anything, no
error is raised, and both dictionaries are left untouched; and this silent
outcome is unique to unrecognized kinds — for a sender that is still
registered with a live socket (see claim C10), each of the five rejected
cases of the recognized kinds produces exactly one system notice to the
sender. -/
theorem C9_unknown_kind_silent (st : ServerState) (data : MsgData)
    (s : String) (hs : Handle) :
    (data.status ≠ "private" → data.status ≠ "group" → data.status ≠ "create" →
     data.status ≠ "join" → process_message st data s = (st, [], false))
    ∧ (assocLookup st.clients s = some hs → hs.alive = true →
       ((data.status = "private" →
           assocLookup st.clients data.receiver = none →
           process_message st data s =
             (st, [(s, message_to_json "system" "SERVER" s
                 ("User " ++ data.receiver ++ " not found."))], false))
        ∧ (data.status = "group" →
           (assocLookup st.groups data.receiver = none ∨
            ∃ ms, assocLookup st.groups data.receiver = some ms ∧ s ∉ ms) →
           process_message st data s =
             (st, [(s, message_to_json "system" "SERVER" s
                 ("Group " ++ data.receiver ++
                  " does not exist or you are not a member."))], false))
        ∧ (data.status = "create" →
           ∀ ms, assocLookup st.groups data.receiver = some ms →
           process_message st data s =
             (st, [(s, message_to_json "system" "SERVER" s
                 ("Group " ++ data.receiver ++ " already exists."))], false))
        ∧ (data.status = "join" →
           assocLookup st.groups data.receiver = none →
           process_message st data s =
             (st, [(s, message_to_json "system" "SERVER" s
                 ("Group " ++ data.receiver ++ " does not exist."))], false))
        ∧ (data.status = "join" →
           ∀ ms, assocLookup st.groups data.receiver = some ms → s ∈ ms →
           process_message st data s =
             (st, [(s, message_to_json "system" "SERVER" s
                 ("You are already in group " ++ data.receiver ++ "."))],
              false)))) := by
  refine ⟨process_message_unknown st data s, fun hreg hal => ?_⟩
  refine ⟨fun hst hr => ?_, fun hst hbad => ?_, fun hst ms hg => ?_,
    fun hst hg => ?_, fun hst ms hg hm => ?_⟩
  · rw [process_message_private st data s hst]
    simp [send_private_message, hr, send_system_message_online hreg hal]
  · rw [process_message_group st data s hst]
    rcases hbad with hg | ⟨ms, hg, hnm⟩
    · simp [send_group_message, hg, send_system_message_online hreg hal]
    · simp [send_group_message, hg, hnm, send_system_message_online hreg hal]
  · rw [process_message_create st data s hst]
    simp [create_group, hg, send_system_message_online hreg hal]
  · rw [process_message_join st data s hst]
    simp [join_group, hg, send_system_message_online hreg hal]
  · rw [process_message_join st data s hst]
    simp [join_group, hg, hm, send_system_message_online hreg hal]

theorem C9_unknown_kind_silent_witness :
    process_message demoState ⟨"shout", "proj", "hi"⟩ "alice" =
      (demoState, [], false)
    ∧ assocLookup demoState.clients "carol" = some carolSock
    ∧ carolSock.alive = true
    ∧ assocLookup demoState.clients "eve" = none
    ∧ process_message demoState ⟨"private", "eve", "hi"⟩ "carol" =
        (demoState,
         [("carol", message_to_json "system" "SERVER" "carol"
             "User eve not found.")], false) :=
  ⟨(C9_unknown_kind_silent demoState ⟨"shout", "proj", "hi"⟩ "alice"
      aliceSock).1 (by decide) (by decide) (by decide) (by decide),
   rfl, rfl, rfl,
   ((C9_unknown_kind_silent demoState ⟨"private", "eve", "hi"⟩ "carol"
      carolSock).2 rfl rfl).1 rfl rfl⟩

/-- Claim C10 (implicit): a system notice aimed at an identity that is not
in the registry is a silent no-op — `send_system_message` writes nothing,
raises nothing, and mutates nothing — so every error or acknowledgement
notice addressed to an already-absent sender vanishes: a failed private
send or join by an absent sender returns with the state unchanged and zero
deliveries, and a create by an absent sender still installs the group but
its success acknowledgement is dropped. -/
theorem C10_offline_notice_dropped (st : ServerState) (u msg : String)
    (hu : assocLookup st.clients u = none) :
    send_system_message st.clients u msg = ([], false)
    ∧ (∀ r t, assocLookup st.clients r = none →
       process_message st ⟨"private", r, t⟩ u = (st, [], false))
    ∧ (∀ g, assocLookup st.groups g = none →
       process_message st ⟨"join", g, ""⟩ u = (st, [], false))
    ∧ (∀ g, assocLookup st.groups g = none →
       process_message st ⟨"create", g, ""⟩ u =
         ({ st with groups := assocSet st.groups g [u] }, [], false)) := by
  refine ⟨send_system_message_offline hu msg, fun r t hr => ?_,
    fun g hg => ?_, fun g hg => ?_⟩
  · rw [process_message_private st ⟨"private", r, t⟩ u rfl]
    simp [send_private_message, hr, send_system_message_offline hu]
  · rw [process_message_join st ⟨"join", g, ""⟩ u rfl]
    simp [join_group, hg, send_system_message_offline hu]
  · rw [process_message_create st ⟨"create", g, ""⟩ u rfl]
    simp [create_group, hg, send_system_message, hu]

theorem C10_offline_notice_dropped_witness :
    assocLookup demoState.clients "mallory" = none
    ∧ send_system_message demoState.clients "mallory" "You cannot do that." =
        ([], false)
    ∧ process_message demoState ⟨"private", "eve", "psst"⟩ "mallory" =
        (demoState, [], false)
    ∧ process_message demoState ⟨"join", "games", ""⟩ "mallory" =
        (demoState, [], false)
    ∧ process_message demoState ⟨"create", "games", ""⟩ "mallory" =
        ({ demoState with
            groups := assocSet demoState.groups "games" ["mallory"] },
         [], false) :=
  ⟨rfl,
   (C10_offline_notice_dropped demoState "mallory" "You cannot do that."
      rfl).1,
   (C10_offline_notice_dropped demoState "mallory" "x" rfl).2.1 "eve" "psst"
     rfl,
   (C10_offline_notice_dropped demoState "mallory" "x" rfl).2.2.1 "games" rfl,
   (C10_offline_notice_dropped demoState "mallory" "x" rfl).2.2.2 "games" rfl⟩

end ClassChat
